import Mathlib

/-!
# Verification of the chatbot-widget SSE streaming core

Shallow embedding of the streaming chat core of the `chatbot-widget`
repository:

* `src/hooks/useChatApi.ts` — the SSE line framer, event decoder and
  per-turn state machine (`sendStreamingMessage` / `processLine` /
  `readStream`), the deeper-analysis sub-session
  (`requestDeeperAnalysis`) and the `sendMessage` entry guard;
* the conversation store's `updateMessage` (context provider).

Text is modelled as `List Char`; chunk concatenation and `split('\n')`
are modelled directly on character lists.  `JSON.parse` is modelled by a
small executable JSON parser (`jsonParse`) covering objects, arrays,
strings with the common escapes, integer numbers and the literals
`true`/`false`/`null`; floating-point numbers and `\u` escapes are not
modelled (no payload in the verified properties uses them).  JavaScript
promise settlement is modelled by an `Option (Except _ _)` field: the
first `resolve`/`reject` wins, later ones are no-ops.
-/

/-- JSON values, as produced by `JSON.parse` on the SSE payloads.
Numbers are modelled as integers (see the module comment). -/
inductive Json where
  | null : Json
  | bool (b : Bool) : Json
  | num (n : Int) : Json
  | str (s : List Char) : Json
  | arr (xs : List Json) : Json
  | obj (fields : List (List Char × Json)) : Json

/-- Whitespace accepted between JSON tokens. -/
def jsonWs (c : Char) : Bool :=
  c = ' ' || c = '\t' || c = '\n' || c = '\r'

/-- Parse the body of a JSON string literal (after the opening quote):
returns the decoded characters and the input after the closing quote. -/
def parseStr : List Char → Option (List Char × List Char)
  | [] => none
  | '"' :: rest => some ([], rest)
  | '\\' :: e :: rest =>
    (match e with
     | '"' => some '"'
     | '\\' => some '\\'
     | '/' => some '/'
     | 'n' => some '\n'
     | 't' => some '\t'
     | 'r' => some '\r'
     | 'b' => some (Char.ofNat 8)
     | 'f' => some (Char.ofNat 12)
     | _ => none).bind fun c =>
      (parseStr rest).map fun (s, r) => (c :: s, r)
  | c :: rest =>
    if c = '"' || c = '\\' then none
    else (parseStr rest).map fun (s, r) => (c :: s, r)

/-- Parse a run of decimal digits. -/
def parseDigits : List Char → List Char × List Char
  | [] => ([], [])
  | c :: rest =>
    if c.isDigit then
      let (ds, r) := parseDigits rest
      (c :: ds, r)
    else ([], c :: rest)

/-- Digits to a natural number value. -/
def digitsVal (ds : List Char) : Nat :=
  ds.foldl (fun acc c => acc * 10 + (c.toNat - 48)) 0

/-- Parse a JSON integer (optional minus sign, no leading zeros). -/
def parseNum : List Char → Option (Int × List Char)
  | [] => none
  | '-' :: rest =>
    (parseNum rest).bind fun (n, r) => if n ≥ 0 then some (-n, r) else none
  | c :: rest =>
    if c.isDigit then
      let (ds, r) := parseDigits (c :: rest)
      match ds with
      | [] => none
      | ['0'] => some ((0 : Int), r)
      | d :: _ => if d = '0' then none else some ((digitsVal ds : Int), r)
    else none

mutual

/-- Fuel-indexed JSON value parser (the fuel strictly exceeds the input
length at the top-level call, so it never runs out on real input). -/
def parseVal : Nat → List Char → Option (Json × List Char)
  | 0, _ => none
  | _ + 1, [] => none
  | fuel + 1, c :: rest =>
    if jsonWs c then parseVal fuel rest
    else if c = '"' then (parseStr rest).map fun (s, r) => (Json.str s, r)
    else if c = '{' then parseObj fuel (skipWs rest) true
    else if c = '[' then parseArr fuel (skipWs rest) true
    else if c = 't' then
      match rest with
      | 'r' :: 'u' :: 'e' :: r => some (Json.bool true, r)
      | _ => none
    else if c = 'f' then
      match rest with
      | 'a' :: 'l' :: 's' :: 'e' :: r => some (Json.bool false, r)
      | _ => none
    else if c = 'n' then
      match rest with
      | 'u' :: 'l' :: 'l' :: r => some (Json.null, r)
      | _ => none
    else (parseNum (c :: rest)).map fun (n, r) => (Json.num n, r)

/-- Parse the members of a JSON object after `{` (and, when `first` is
false, after a comma). -/
def parseObj : Nat → List Char → Bool → Option (Json × List Char)
  | 0, _, _ => none
  | _ + 1, [], _ => none
  | fuel + 1, c :: rest, first =>
    if c = '}' ∧ first then some (Json.obj [], rest)
    else if c = '"' then
      (parseStr rest).bind fun (k, r1) =>
        match skipWs r1 with
        | ':' :: r2 =>
          (parseVal fuel r2).bind fun (v, r3) =>
            match skipWs r3 with
            | '}' :: r4 => some (Json.obj [(k, v)], r4)
            | ',' :: r4 =>
              (parseObj fuel (skipWs r4) false).bind fun (j, r5) =>
                match j with
                | Json.obj fs => some (Json.obj ((k, v) :: fs), r5)
                | _ => none
            | _ => none
        | _ => none
    else none

/-- Parse the elements of a JSON array after `[` (and, when `first` is
false, after a comma). -/
def parseArr : Nat → List Char → Bool → Option (Json × List Char)
  | 0, _, _ => none
  | _ + 1, [], _ => none
  | fuel + 1, c :: rest, first =>
    if c = ']' ∧ first then some (Json.arr [], rest)
    else
      (parseVal fuel (c :: rest)).bind fun (v, r1) =>
        match skipWs r1 with
        | ']' :: r2 => some (Json.arr [v], r2)
        | ',' :: r2 =>
          (parseArr fuel (skipWs r2) false).bind fun (j, r3) =>
            match j with
            | Json.arr vs => some (Json.arr (v :: vs), r3)
            | _ => none
        | _ => none

/-- Skip leading JSON whitespace. -/
def skipWs : List Char → List Char
  | [] => []
  | c :: rest => if jsonWs c then skipWs rest else c :: rest

end

/-- Model of `JSON.parse`: `none` models a thrown `SyntaxError`.  The
whole input (up to trailing whitespace) must be consumed. -/
def jsonParse (cs : List Char) : Option Json :=
  match parseVal (cs.length + 1) cs with
  | some (v, rest) => if skipWs rest = [] then some v else none
  | none => none

/-- JavaScript truthiness of a JSON value (`false`, `0`, `""`, `null`
are falsy; arrays and objects are truthy). -/
def jsTruthy : Json → Bool
  | Json.null => false
  | Json.bool b => b
  | Json.num n => n != 0
  | Json.str s => s != []
  | Json.arr _ => true
  | Json.obj _ => true

/-- Truthiness of a possibly-`undefined` JSON value (`none` models
`undefined`). -/
def jsOptTruthy : Option Json → Bool
  | none => false
  | some j => jsTruthy j

/-- JavaScript `x || d` on a possibly-`undefined` JSON value. -/
def jsOr (v : Option Json) (d : Json) : Json :=
  match v with
  | some j => if jsTruthy j then j else d
  | none => d

/-- Property lookup `data.key` on a parsed JSON value: `none` models
`undefined` (missing key or non-object receiver). -/
def jlookup (j : Json) (key : List Char) : Option Json :=
  match j with
  | Json.obj fields => (fields.find? (fun f => f.1 = key)).map (·.2)
  | _ => none

/-- Characters trimmed by JavaScript `String.prototype.trim` (the
whitespace characters that can occur in this protocol's text). -/
def jsWsChar (c : Char) : Bool :=
  c = ' ' || c = '\t' || c = '\n' || c = '\r' || c = Char.ofNat 11 || c = Char.ofNat 12

/-- Model of `line.trim()`. -/
def jsTrim (cs : List Char) : List Char :=
  ((cs.dropWhile jsWsChar).reverse.dropWhile jsWsChar).reverse

/-- Truthiness of a possibly-`undefined` string (`auth.token`): absent
or empty is falsy. -/
def strOptTruthy : Option (List Char) → Bool
  | none => false
  | some s => s != []

/-- A conversation message (`Message` in `types.ts`).  Optional fields
are `Option`-typed with `none` modelling `undefined`; fields whose
values originate in SSE payloads are `Json`-typed because the
implementation assigns the raw parsed payload field. -/
structure Msg where
  role : List Char
  content : Json
  timestamp : Nat
  provider : Option Json := none
  model : Option Json := none
  sources : Option Json := none
  confidence : Option Json := none
  mode : Option (List Char) := none
  route : Option Json := none
  outline : Option Json := none
  isStreaming : Option Bool := none
  streamingStatus : Option Json := none
  sessionId : Option Json := none
  canGoDeeper : Option Json := none
  deeperSuggestion : Option Json := none
  deeperAnalysis : Option Json := none
  isLoadingDeeper : Option Bool := none

/-- A partial update (`Partial<Message>` as used by `updateMessage`):
for each field, `none` means the key is absent from the update object
and `some v` means the key is present with value `v` (which may itself
model `undefined`, e.g. `streamingStatus: undefined`). -/
structure MsgPatch where
  content : Option Json := none
  model : Option (Option Json) := none
  confidence : Option (Option Json) := none
  route : Option (Option Json) := none
  outline : Option (Option Json) := none
  isStreaming : Option (Option Bool) := none
  streamingStatus : Option (Option Json) := none
  sessionId : Option (Option Json) := none
  canGoDeeper : Option (Option Json) := none
  deeperSuggestion : Option (Option Json) := none
  deeperAnalysis : Option (Option Json) := none
  isLoadingDeeper : Option (Option Bool) := none

/-- Object spread `{ ...m, ...p }`: keys present in the update replace
the message's fields. -/
def applyPatch (m : Msg) (p : MsgPatch) : Msg :=
  { m with
    content := p.content.getD m.content
    model := p.model.getD m.model
    confidence := p.confidence.getD m.confidence
    route := p.route.getD m.route
    outline := p.outline.getD m.outline
    isStreaming := p.isStreaming.getD m.isStreaming
    streamingStatus := p.streamingStatus.getD m.streamingStatus
    sessionId := p.sessionId.getD m.sessionId
    canGoDeeper := p.canGoDeeper.getD m.canGoDeeper
    deeperSuggestion := p.deeperSuggestion.getD m.deeperSuggestion
    deeperAnalysis := p.deeperAnalysis.getD m.deeperAnalysis
    isLoadingDeeper := p.isLoadingDeeper.getD m.isLoadingDeeper }

/-- The conversation store's `updateMessage` (context provider):
`const updated = [...prev]; if (updated[index]) { updated[index] =
{ ...updated[index], ...updates }; } return updated;` — message records
are objects, hence always truthy, so the guard is exactly an
in-bounds check. -/
def updateMessage (msgs : List Msg) (index : Nat) (updates : MsgPatch) : List Msg :=
  if h : index < msgs.length then
    msgs.set index (applyPatch (msgs.get ⟨index, h⟩) updates)
  else msgs

/-- Severity of a console diagnostic. -/
inductive DiagLevel where
  | log : DiagLevel
  | warn : DiagLevel
  | error : DiagLevel
deriving DecidableEq

/-- State of one research-mode streaming turn (`sendStreamingMessage`):
the research track of the store, the bound message index, the decoder's
pending event type (`eventBuffer`), the `receivedDone` flag, the
settlement of the turn's promise (`none` = still pending; the first
`resolve`/`reject` wins), the value last passed to `setRemainingQuota`,
and the console diagnostics emitted so far. -/
structure TurnState where
  research : List Msg
  messageIndex : Nat
  eventBuffer : List Char
  receivedDone : Bool
  outcome : Option (Except (Option Json) Unit)
  quota : Option Json
  diagnostics : List (DiagLevel × List Char)

/-- Promise settlement: `resolve`/`reject` are no-ops once settled. -/
def settle (st : TurnState) (o : Except (Option Json) Unit) : TurnState :=
  match st.outcome with
  | some _ => st
  | none => { st with outcome := some o }

/-- The message currently bound to the turn. -/
def boundMsg (st : TurnState) : Option Msg :=
  st.research[st.messageIndex]?

/-- The update object passed to `updateMessage` by the `outline` case. -/
def outlinePatch (data : Json) : MsgPatch :=
  { outline := some (some (jsOr (jlookup data "outline".toList) (Json.arr []))),
    model := some (some (jsOr (jlookup data "model".toList) (Json.str []))),
    streamingStatus :=
      some (some (Json.str "Preparing detailed response...".toList)) }

/-- The update object passed to `updateMessage` by the `status` case. -/
def statusPatch (data : Json) : MsgPatch :=
  { streamingStatus :=
      some (some (jsOr (jlookup data "message".toList)
        (Json.str "Generating...".toList))) }

/-- The update object passed to `updateMessage` by the `answer` case. -/
def answerPatch (data : Json) : MsgPatch :=
  { content := some (jsOr (jlookup data "answer".toList) (Json.str [])),
    model := some (jlookup data "model".toList),
    isStreaming := some (some false),
    streamingStatus := some none }

/-- The update object passed to `updateMessage` by the `done` case. -/
def donePatch (data : Json) : MsgPatch :=
  { isStreaming := some (some false),
    streamingStatus := some none,
    confidence := some (some (Json.num 85)),
    route := some (some (Json.str "research".toList)),
    sessionId := some (jlookup data "sessionId".toList),
    canGoDeeper := some (jlookup data "canGoDeeper".toList),
    deeperSuggestion := some (jlookup data "deeperSuggestion".toList) }

/-- `if (data.remainingQuota !== undefined) setRemainingQuota(...)`. -/
def propagateQuota (st : TurnState) (data : Json) : TurnState :=
  match jlookup data "remainingQuota".toList with
  | some q => { st with quota := some q }
  | none => st

/-- The `data: ` branch of `processLine` in `sendStreamingMessage`:
parse the payload (a parse failure is caught and logged with
`console.error`), dispatch on the pending event type, then reset the
pending event type to the empty string. -/
def dataStep (st : TurnState) (payload : List Char) : TurnState :=
  let eventType := st.eventBuffer
  let st1 :=
    match jsonParse payload with
    | none =>
      { st with diagnostics :=
          st.diagnostics ++ [(DiagLevel.error, "Failed to parse SSE data:".toList)] }
    | some data =>
      if eventType = "outline".toList then
        { st with research := updateMessage st.research st.messageIndex (outlinePatch data) }
      else if eventType = "status".toList then
        { st with research := updateMessage st.research st.messageIndex (statusPatch data) }
      else if eventType = "answer".toList then
        { st with research := updateMessage st.research st.messageIndex (answerPatch data) }
      else if eventType = "done".toList then
        let st2 := { st with receivedDone := true }
        let st3 :=
          { st2 with research := updateMessage st2.research st2.messageIndex (donePatch data) }
        settle (propagateQuota st3 data) (Except.ok ())
      else if eventType = "error".toList then
        settle st (Except.error
          (some (jsOr (jlookup data "message".toList) (Json.str "Stream error".toList))))
      else st
  { st1 with eventBuffer := [] }

/-- `processLine` of `sendStreamingMessage`: an `event: ` line stores
the trimmed remainder as pending event type; a `data: ` line runs
`dataStep`; other lines are ignored. -/
def processLine (st : TurnState) (line : List Char) : TurnState :=
  if "event: ".toList.isPrefixOf line then
    { st with eventBuffer := jsTrim (line.drop 7) }
  else if "data: ".toList.isPrefixOf line then
    dataStep st (line.drop 6)
  else st

/-- The per-chunk line loop: `if (line.trim()) processLine(line.trim())`. -/
def processLines (st : TurnState) (lines : List (List Char)) : TurnState :=
  lines.foldl (fun s line => if jsTrim line = [] then s else processLine s (jsTrim line)) st

/-- Helper for `splitAll`: prepend a character to the first segment of
a split result. -/
def consFirst (c : Char) :
    List (List Char) × List Char → List (List Char) × List Char
  | ([], p) => ([], c :: p)
  | (s :: ss, p) => ((c :: s) :: ss, p)

/-- Model of `text.split('\n')` with the last element popped off
(`const lines = text.split('\n'); partialLine = lines.pop() || '';`):
returns (complete lines, trailing segment after the last newline). -/
def splitAll : List Char → List (List Char) × List Char
  | [] => ([], [])
  | c :: rest =>
    if c = '\n' then ([] :: (splitAll rest).1, (splitAll rest).2)
    else consFirst c (splitAll rest)

/-- One iteration of the `readStream` loop on a non-final chunk: the
carried partial line is prepended, the text split into lines, the last
segment retained as the new partial line, and each complete line
processed. -/
def readChunk (s : TurnState × List Char) (chunk : List Char) : TurnState × List Char :=
  let parts := splitAll (s.2 ++ chunk)
  (processLines s.1 parts.1, parts.2)

/-- The end-of-stream branch of `readStream` (`done` from the reader):
when no `done` event was received, force `isStreaming: false` on the
bound message; then break out of the loop.  Note that this branch does
not settle the turn's promise. -/
def onClose (st : TurnState) : TurnState :=
  if st.receivedDone then st
  else
    let p : MsgPatch := { isStreaming := some (some false) }
    { st with research := updateMessage st.research st.messageIndex p }

/-- `readStream` on a stream that delivers `chunks` and then reports
`done`. -/
def readStream (st0 : TurnState) (chunks : List (List Char)) : TurnState :=
  onClose (chunks.foldl readChunk (st0, [])).1

/-- Initialization of a research-mode turn (`sendStreamingMessage`,
before the fetch): find the latest assistant message carrying a truthy
`sessionId` (follow-up detection), append the placeholder assistant
message (`placeholderMessage`), and bind the turn to the placeholder's
index (the length of the `researchMessages` snapshot taken before the
append). -/
def placeholderMessage (prior : List Msg) (ts : Nat) : Msg :=
  let existingSessionId : Option Json :=
    (((prior.filter fun m =>
        (m.role == "assistant".toList) && jsOptTruthy m.sessionId).map
      (fun m => m.sessionId)).getLast?).join
  let isFollowUp := jsOptTruthy existingSessionId
  { role := "assistant".toList
    content := Json.str []
    timestamp := ts
    mode := some "research".toList
    isStreaming := some true
    streamingStatus := some (Json.str
      (if isFollowUp then "Generating response...".toList
       else "Analyzing article...".toList)) }

/-- See `placeholderMessage` for the appended placeholder. -/
def initTurn (prior : List Msg) (ts : Nat) : TurnState :=
  { research := prior ++ [placeholderMessage prior ts]
    messageIndex := prior.length
    eventBuffer := []
    receivedDone := false
    outcome := none
    quota := none
    diagnostics := [] }

/-- State of one deeper-analysis sub-session (`requestDeeperAnalysis`):
same shape as a streaming turn but with no `receivedDone` flag (the
deeper loop has none). -/
structure DState where
  research : List Msg
  messageIndex : Nat
  eventBuffer : List Char
  outcome : Option (Except (Option Json) Unit)
  quota : Option Json
  diagnostics : List (DiagLevel × List Char)

/-- Promise settlement for the deeper sub-session. -/
def dsettle (st : DState) (o : Except (Option Json) Unit) : DState :=
  match st.outcome with
  | some _ => st
  | none => { st with outcome := some o }

/-- The message targeted by the deeper sub-session. -/
def dboundMsg (st : DState) : Option Msg :=
  st.research[st.messageIndex]?

/-- The `data: ` branch of `processLine` in `requestDeeperAnalysis`:
`analysis` patches the analysis text, `done` clears the loading flag
and resolves, `error` clears the loading flag, restores `canGoDeeper`
and rejects with `new Error(data.message)`.  The update object of the
`analysis` case: -/
def analysisPatch (data : Json) : MsgPatch :=
  { deeperAnalysis := some (some (jsOr (jlookup data "analysis".toList) (Json.str []))),
    isLoadingDeeper := some (some false) }

/-- The update object of the deeper `done` case. -/
def deeperDonePatch : MsgPatch := { isLoadingDeeper := some (some false) }

/-- The update object of the deeper `error` case (also used by the
transport-failure handler). -/
def deeperErrorPatch : MsgPatch :=
  { isLoadingDeeper := some (some false),
    canGoDeeper := some (some (Json.bool true)) }

/-- The update object applied when the deeper request starts. -/
def deeperStartPatch : MsgPatch :=
  { isLoadingDeeper := some (some true),
    canGoDeeper := some (some (Json.bool false)) }

def deeperDataStep (st : DState) (payload : List Char) : DState :=
  let eventType := st.eventBuffer
  let st1 :=
    match jsonParse payload with
    | none =>
      { st with diagnostics :=
          st.diagnostics ++ [(DiagLevel.error, "Failed to parse SSE data:".toList)] }
    | some data =>
      if eventType = "analysis".toList then
        { st with research := updateMessage st.research st.messageIndex (analysisPatch data) }
      else if eventType = "done".toList then
        let st2 :=
          { st with research := updateMessage st.research st.messageIndex deeperDonePatch }
        let st3 :=
          match jlookup data "remainingQuota".toList with
          | some q => { st2 with quota := some q }
          | none => st2
        dsettle st3 (Except.ok ())
      else if eventType = "error".toList then
        let st2 :=
          { st with research := updateMessage st.research st.messageIndex deeperErrorPatch }
        dsettle st2 (Except.error (jlookup data "message".toList))
      else st
  { st1 with eventBuffer := [] }

/-- `processLine` of `requestDeeperAnalysis`. -/
def deeperProcessLine (st : DState) (line : List Char) : DState :=
  if "event: ".toList.isPrefixOf line then
    { st with eventBuffer := jsTrim (line.drop 7) }
  else if "data: ".toList.isPrefixOf line then
    deeperDataStep st (line.drop 6)
  else st

/-- The deeper `readStream` line loop for one chunk. -/
def deeperReadChunk (s : DState × List Char) (chunk : List Char) : DState × List Char :=
  let parts := splitAll (s.2 ++ chunk)
  (parts.1.foldl
    (fun st line => if jsTrim line = [] then st else deeperProcessLine st (jsTrim line))
    s.1, parts.2)

/-- The deeper `readStream` on a stream delivering `chunks` then
reporting `done`: the close branch is a bare `break` (no patch, no
settlement). -/
def deeperReadStream (st0 : DState) (chunks : List (List Char)) : DState :=
  (chunks.foldl deeperReadChunk (st0, [])).1

/-- The transport outcome of the deeper fetch, abstracting the network
boundary: either the request fails before any event is decoded (non-OK
HTTP status — the thrown `Request failed (status)` — or a connection
error, both landing in the promise's `.catch`), or it succeeds and the
response body delivers the given SSE chunks. -/
inductive DeeperTransport where
  | failure (err : List Char) : DeeperTransport
  | stream (chunks : List (List Char)) : DeeperTransport

/-- Observable result of `requestDeeperAnalysis`: the research track
after the call, the settlement of the returned promise, the quota
propagated, the diagnostics, and whether `fetch` was invoked. -/
structure DeeperResult where
  research : List Msg
  outcome : Option (Except (Option Json) Unit)
  quota : Option Json
  diagnostics : List (DiagLevel × List Char)
  networkCalled : Bool

/-- `requestDeeperAnalysis`: the guard
`if (!message?.sessionId || !auth.token) return;` makes the call a
resolved no-op; otherwise the target message is patched to
`isLoadingDeeper: true, canGoDeeper: false` and the deeper SSE stream
is consumed; a transport failure restores
`isLoadingDeeper: false, canGoDeeper: true` and rejects. -/
def requestDeeperAnalysis (research : List Msg) (index : Nat)
    (token : Option (List Char)) (transport : DeeperTransport) : DeeperResult :=
  let message := research[index]?
  if !(jsOptTruthy (message.bind (fun m => m.sessionId))) || !(strOptTruthy token) then
    { research := research, outcome := some (Except.ok ()), quota := none,
      diagnostics := [], networkCalled := false }
  else
    let research1 := updateMessage research index deeperStartPatch
    match transport with
    | DeeperTransport.failure err =>
      { research := updateMessage research1 index deeperErrorPatch,
        outcome := some (Except.error (some (Json.str err))),
        quota := none, diagnostics := [], networkCalled := true }
    | DeeperTransport.stream chunks =>
      let st0 : DState :=
        { research := research1, messageIndex := index, eventBuffer := [],
          outcome := none, quota := none, diagnostics := [] }
      let st := deeperReadStream st0 chunks
      { research := st.research, outcome := st.outcome, quota := st.quota,
        diagnostics := st.diagnostics, networkCalled := true }

/-- Observable result of the `sendMessage` entry guard: both
conversation tracks, whether any chat/stream HTTP request was issued,
and whether the host's `onAuthRequired` callback was invoked. -/
structure SendResult where
  messages : List Msg
  research : List Msg
  httpIssued : Bool
  authRequiredCalled : Bool

/-- `sendMessage`: blank content returns immediately; an
unauthenticated caller triggers the optional `onAuthRequired` callback
and returns; otherwise the trimmed user message is appended to the
active track and the turn is delegated to the streaming or standard
sub-flow (abstracted here as the continuation `k`, which receives both
tracks after the user-message append — the guarded branches never reach
it). -/
def sendMessage (content : List Char) (isAuthenticated : Bool)
    (hasOnAuthRequired : Bool) (isResearchMode : Bool) (ts : Nat)
    (messages research : List Msg)
    (k : List Msg → List Msg → SendResult) : SendResult :=
  if jsTrim content = [] then
    { messages := messages, research := research,
      httpIssued := false, authRequiredCalled := false }
  else if !isAuthenticated then
    { messages := messages, research := research,
      httpIssued := false, authRequiredCalled := hasOnAuthRequired }
  else
    let userMessage : Msg :=
      { role := "user".toList
        content := Json.str (jsTrim content)
        timestamp := ts
        mode := some (if isResearchMode then "research".toList else "regular".toList) }
    if isResearchMode then k messages (research ++ [userMessage])
    else k (messages ++ [userMessage]) research

/-- The Line Framer alone: fold the `readStream` framing step (prepend
the carried partial line, split on `'\n'`, retain the last segment)
over a chunk sequence, accumulating the complete lines emitted.  At
end of input the leftover partial line is discarded, exactly as in
`readStream`. -/
def framer (s : List (List Char) × List Char) (chunks : List (List Char)) :
    List (List Char) × List Char :=
  chunks.foldl
    (fun acc chunk =>
      let parts := splitAll (acc.2 ++ chunk)
      (acc.1 ++ parts.1, parts.2)) s

/-- The lines actually handed to `processLine`: framed lines, filtered
to those with non-blank trims, each trimmed
(`if (line.trim()) processLine(line.trim())`). -/
def processedLines (chunks : List (List Char)) : List (List Char) :=
  ((framer ([], []) chunks).1.filter (fun l => jsTrim l != [])).map jsTrim

/-- A minimal assistant message, used for concrete instantiations. -/
def sampleMsg : Msg :=
  { role := "assistant".toList, content := Json.str [], timestamp := 0 }

/-- A completed research message carrying a session identifier. -/
def sampleSessionMsg : Msg :=
  { sampleMsg with
    sessionId := some (Json.str "s1".toList),
    canGoDeeper := some (Json.bool true) }

/-- A turn state with an empty pending event type. -/
def baseTurnState : TurnState :=
  { research := [sampleMsg], messageIndex := 0, eventBuffer := [],
    receivedDone := false, outcome := none, quota := none, diagnostics := [] }

/-- A turn state whose pending event type is `error`. -/
def errTurnState : TurnState :=
  { baseTurnState with eventBuffer := "error".toList }

/-- A deeper-analysis state whose pending event type is `error`. -/
def errDState : DState :=
  { research := [sampleSessionMsg], messageIndex := 0,
    eventBuffer := "error".toList, outcome := none, quota := none,
    diagnostics := [] }

/-- The C2 scenario stream, delivered as a single chunk. -/
def c2chunk : List Char :=
  ("event: status\ndata: \x7b\"message\":\"thinking\"\x7d\n\n" ++
   "event: done\ndata: \x7b\"sessionId\":\"s1\",\"canGoDeeper\":true\x7d\n\n").toList

/-- `JSON.parse` result of the C2 status payload. -/
def dThinking : Json := Json.obj [("message".toList, Json.str "thinking".toList)]

/-- `JSON.parse` result of the C2 done payload. -/
def dDoneS1 : Json :=
  Json.obj [("sessionId".toList, Json.str "s1".toList),
            ("canGoDeeper".toList, Json.bool true)]

/-- A turn state whose pending event type is `done`. -/
def doneTurnState : TurnState :=
  { baseTurnState with eventBuffer := "done".toList }

/-- A turn state that has already seen a `done` event. -/
def doneReceivedState : TurnState :=
  { baseTurnState with receivedDone := true }

/-- A stream that emits a `done` event and then closes. -/
def doneOnlyChunk : List Char :=
  "event: done\ndata: \x7b\x7d\n".toList

/-- A stream that emits a `done` event and then a further `status`
event before closing. -/
def doneThenStatusChunk : List Char :=
  "event: done\ndata: \x7b\x7d\n\nevent: status\ndata: \x7b\"message\":\"later\"\x7d\n\n".toList

/-- A stream that closes after a lone `status` event (no terminal
event). -/
def statusOnlyChunk : List Char :=
  "event: status\ndata: \x7b\"message\":\"x\"\x7d\n".toList

/-- C2 scenario, intermediate state after `event: status`. -/
def c2state1 (prior : List Msg) (ts : Nat) : TurnState :=
  { initTurn prior ts with eventBuffer := "status".toList }

/-- C2 scenario, research track after the `status` event is applied. -/
def c2research2 (prior : List Msg) (ts : Nat) : List Msg :=
  prior ++ [applyPatch (placeholderMessage prior ts) (statusPatch dThinking)]

/-- C2 scenario, state after the `status` event. -/
def c2state2 (prior : List Msg) (ts : Nat) : TurnState :=
  { initTurn prior ts with eventBuffer := [], research := c2research2 prior ts }

/-- C2 scenario, state after `event: done`. -/
def c2state3 (prior : List Msg) (ts : Nat) : TurnState :=
  { c2state2 prior ts with eventBuffer := "done".toList }

/-- C2 scenario, the bound message at the end of the turn. -/
def c2msg (prior : List Msg) (ts : Nat) : Msg :=
  applyPatch (applyPatch (placeholderMessage prior ts) (statusPatch dThinking))
    (donePatch dDoneS1)

/-- C2 scenario, final turn state. -/
def c2final (prior : List Msg) (ts : Nat) : TurnState :=
  { research := prior ++ [c2msg prior ts], messageIndex := prior.length,
    eventBuffer := [], receivedDone := true, outcome := some (Except.ok ()),
    quota := none, diagnostics := [] }

/-- A continuation standing for the authenticated non-blank send path
(it records that an HTTP request would be issued). -/
def sampleK : List Msg → List Msg → SendResult :=
  fun a b =>
    { messages := a, research := b, httpIssued := true, authRequiredCalled := false }

theorem eventPre_toList : "event: ".toList = ['e','v','e','n','t',':',' '] := rfl

theorem dataPre_toList : "data: ".toList = ['d','a','t','a',':',' '] := rfl

theorem processLine_data (st : TurnState) (p : List Char) :
    processLine st ("data: ".toList ++ p) = dataStep st p := by
  simp [processLine, List.isPrefixOf, dataPre_toList, eventPre_toList]

theorem processLine_event (st : TurnState) (p : List Char) :
    processLine st ("event: ".toList ++ p) = { st with eventBuffer := jsTrim p } := by
  simp [processLine, List.isPrefixOf, eventPre_toList]

theorem deeperProcessLine_data (st : DState) (p : List Char) :
    deeperProcessLine st ("data: ".toList ++ p) = deeperDataStep st p := by
  simp [deeperProcessLine, List.isPrefixOf, dataPre_toList, eventPre_toList]

theorem updateMessage_oob (msgs : List Msg) (i : Nat) (p : MsgPatch)
    (h : msgs.length ≤ i) : updateMessage msgs i p = msgs := by
  unfold updateMessage
  rw [dif_neg (by omega)]

theorem updateMessage_get_self (msgs : List Msg) (i : Nat) (p : MsgPatch)
    (h : i < msgs.length) :
    (updateMessage msgs i p)[i]? = some (applyPatch (msgs.get ⟨i, h⟩) p) := by
  unfold updateMessage
  rw [dif_pos h]
  exact List.getElem?_set_eq_of_lt _ h

theorem updateMessage_length (msgs : List Msg) (i : Nat) (p : MsgPatch) :
    (updateMessage msgs i p).length = msgs.length := by
  unfold updateMessage
  split <;> simp

theorem updateMessage_append_last (xs : List Msg) (m : Msg) (p : MsgPatch) :
    updateMessage (xs ++ [m]) xs.length p = xs ++ [applyPatch m p] := by
  unfold updateMessage
  rw [dif_pos (by simp)]
  have hg : (xs ++ [m]).get ⟨xs.length, by simp⟩ = m := by
    simp
  rw [hg]
  induction xs with
  | nil => simp
  | cons x xs ih => simp [ih]

theorem settle_none (st : TurnState) (o : Except (Option Json) Unit)
    (h : st.outcome = none) : settle st o = { st with outcome := some o } := by
  unfold settle
  rw [h]

theorem dsettle_none (st : DState) (o : Except (Option Json) Unit)
    (h : st.outcome = none) : dsettle st o = { st with outcome := some o } := by
  unfold dsettle
  rw [h]

theorem dataStep_parse_fail (st : TurnState) (payload : List Char)
    (h : jsonParse payload = none) :
    dataStep st payload =
      { st with
        eventBuffer := [],
        diagnostics := st.diagnostics ++
          [(DiagLevel.error, "Failed to parse SSE data:".toList)] } := by
  unfold dataStep
  rw [h]

theorem dataStep_status (st : TurnState) (payload : List Char) (d : Json)
    (hev : st.eventBuffer = "status".toList) (hp : jsonParse payload = some d) :
    dataStep st payload =
      { st with
        eventBuffer := [],
        research := updateMessage st.research st.messageIndex (statusPatch d) } := by
  unfold dataStep
  rw [hp, hev]
  rfl

theorem dataStep_done (st : TurnState) (payload : List Char) (d : Json)
    (hev : st.eventBuffer = "done".toList) (hp : jsonParse payload = some d) :
    dataStep st payload =
      { settle (propagateQuota
          { st with
            receivedDone := true,
            research := updateMessage st.research st.messageIndex (donePatch d) } d)
          (Except.ok ()) with eventBuffer := [] } := by
  unfold dataStep
  rw [hp, hev]
  rfl

theorem dataStep_error (st : TurnState) (payload : List Char) (d : Json)
    (hev : st.eventBuffer = "error".toList) (hp : jsonParse payload = some d) :
    dataStep st payload =
      { settle st (Except.error (some (jsOr (jlookup d "message".toList)
          (Json.str "Stream error".toList)))) with eventBuffer := [] } := by
  unfold dataStep
  rw [hp, hev]
  rfl

theorem deeperDataStep_error (st : DState) (payload : List Char) (d : Json)
    (hev : st.eventBuffer = "error".toList) (hp : jsonParse payload = some d) :
    deeperDataStep st payload =
      { dsettle
          { st with research := updateMessage st.research st.messageIndex deeperErrorPatch }
          (Except.error (jlookup d "message".toList)) with eventBuffer := [] } := by
  unfold deeperDataStep
  rw [hp, hev]
  rfl

theorem processLines_nil (st : TurnState) : processLines st [] = st := rfl

theorem processLines_cons_skip (st : TurnState) (l : List Char)
    (ls : List (List Char)) (h : jsTrim l = []) :
    processLines st (l :: ls) = processLines st ls := by
  simp [processLines, h]

theorem processLines_cons (st : TurnState) (l : List Char)
    (ls : List (List Char)) (h : jsTrim l ≠ []) :
    processLines st (l :: ls) = processLines (processLine st (jsTrim l)) ls := by
  simp [processLines, h]

theorem readStream_single (st : TurnState) (c : List Char) :
    readStream st [c] = onClose (processLines st (splitAll c).1) := by
  simp [readStream, readChunk]

/-- C5 (amended): for every `data: ` line whose payload fails to parse
as JSON, the decoder drops the event — the research track, the turn
outcome and the `receivedDone` flag are untouched — emits exactly one
error-level diagnostic (`console.error`), resets the pending event type
to empty, and processing continues (the step is total and does not
settle the turn). -/
theorem C5_malformed_payload_dropped (st : TurnState) (payload : List Char)
    (h : jsonParse payload = none) :
    processLine st ("data: ".toList ++ payload) =
      { st with
        eventBuffer := [],
        diagnostics := st.diagnostics ++
          [(DiagLevel.error, "Failed to parse SSE data:".toList)] } := by
  rw [processLine_data]
  exact dataStep_parse_fail st payload h

theorem C5_malformed_payload_dropped_witness :
    processLine baseTurnState ("data: ".toList ++ "\x7boops".toList) =
      { baseTurnState with
        eventBuffer := [],
        diagnostics := [(DiagLevel.error, "Failed to parse SSE data:".toList)] } :=
  C5_malformed_payload_dropped baseTurnState "\x7boops".toList rfl

/-- C5 counterexample: the diagnostic emitted on a JSON parse failure
is error-level (the implementation calls `console.error`), not
warning-level as the claim states. -/
theorem C5_counterexample :
    (processLine baseTurnState ("data: \x7boops".toList)).diagnostics =
      [(DiagLevel.error, "Failed to parse SSE data:".toList)]
    ∧ DiagLevel.error ≠ DiagLevel.warn := by
  constructor
  · rfl
  · decide

/-- C6: `updateMessage` (the store's `patch`) at an index at or beyond
the targeted track's length returns the sequence unchanged; being a
total function, it never throws. -/
theorem C6_patch_out_of_bounds_noop (msgs : List Msg) (index : Nat)
    (fields : MsgPatch) (h : msgs.length ≤ index) :
    updateMessage msgs index fields = msgs :=
  updateMessage_oob msgs index fields h

theorem C6_patch_out_of_bounds_noop_witness :
    updateMessage [sampleMsg] 5 {} = [sampleMsg] :=
  C6_patch_out_of_bounds_noop [sampleMsg] 5 {} (by decide)

/-- C7: `requestDeeperAnalysis` on a message with no `sessionId`, or
with no auth token, is a resolved no-op: no fetch is issued, the
research track is unchanged, and the returned promise resolves (an
async `return`), not rejects. -/
theorem C7_deeper_guard_noop (research : List Msg) (index : Nat)
    (token : Option (List Char)) (transport : DeeperTransport)
    (h : (research[index]?).bind (fun m => m.sessionId) = none ∨ token = none) :
    requestDeeperAnalysis research index token transport =
      { research := research, outcome := some (Except.ok ()), quota := none,
        diagnostics := [], networkCalled := false } := by
  rcases h with h | h
  · simp [requestDeeperAnalysis, h, jsOptTruthy]
  · simp [requestDeeperAnalysis, h, strOptTruthy]

theorem C7_deeper_guard_noop_witness :
    requestDeeperAnalysis [sampleMsg] 0 (some "tok".toList)
        (DeeperTransport.stream []) =
      { research := [sampleMsg], outcome := some (Except.ok ()), quota := none,
        diagnostics := [], networkCalled := false } :=
  C7_deeper_guard_noop [sampleMsg] 0 (some "tok".toList)
    (DeeperTransport.stream []) (Or.inl rfl)

/-- C9: an `error` event with payload `\x7b"message":"boom"\x7d` rejects the
(still-pending) turn with `"boom"`, and the error-event handler itself
leaves the research track — in particular the bound message's
`isStreaming` field — untouched; with a message-less payload the
rejection carries the fallback `"Stream error"`. -/
theorem C9_error_event_rejects :
    (∀ st : TurnState, st.eventBuffer = "error".toList → st.outcome = none →
      processLine st ("data: \x7b\"message\":\"boom\"\x7d".toList) =
        { st with
          eventBuffer := [],
          outcome := some (Except.error (some (Json.str "boom".toList))) })
    ∧ (∀ st : TurnState, st.eventBuffer = "error".toList → st.outcome = none →
      processLine st ("data: \x7b\x7d".toList) =
        { st with
          eventBuffer := [],
          outcome := some (Except.error (some (Json.str "Stream error".toList))) }) := by
  constructor
  · intro st hev hout
    have hline : ("data: \x7b\"message\":\"boom\"\x7d".toList)
        = "data: ".toList ++ "\x7b\"message\":\"boom\"\x7d".toList := rfl
    rw [hline, processLine_data,
      dataStep_error st "\x7b\"message\":\"boom\"\x7d".toList
        (Json.obj [("message".toList, Json.str "boom".toList)]) hev rfl,
      settle_none _ _ hout]
    rfl
  · intro st hev hout
    have hline : ("data: \x7b\x7d".toList)
        = "data: ".toList ++ "\x7b\x7d".toList := rfl
    rw [hline, processLine_data,
      dataStep_error st "\x7b\x7d".toList (Json.obj []) hev rfl,
      settle_none _ _ hout]
    rfl

theorem C9_error_event_rejects_witness :
    processLine errTurnState ("data: \x7b\"message\":\"boom\"\x7d".toList) =
      { errTurnState with
        eventBuffer := [],
        outcome := some (Except.error (some (Json.str "boom".toList))) } :=
  C9_error_event_rejects.1 errTurnState rfl rfl

theorem settle_research (st : TurnState) (o : Except (Option Json) Unit) :
    (settle st o).research = st.research := by
  unfold settle
  cases st.outcome <;> rfl

theorem settle_messageIndex (st : TurnState) (o : Except (Option Json) Unit) :
    (settle st o).messageIndex = st.messageIndex := by
  unfold settle
  cases st.outcome <;> rfl

theorem propagateQuota_research (st : TurnState) (d : Json) :
    (propagateQuota st d).research = st.research := by
  unfold propagateQuota
  cases jlookup d "remainingQuota".toList <;> rfl

theorem propagateQuota_messageIndex (st : TurnState) (d : Json) :
    (propagateQuota st d).messageIndex = st.messageIndex := by
  unfold propagateQuota
  cases jlookup d "remainingQuota".toList <;> rfl

/-- C3 (amended): every `done` event patches the bound message to
`isStreaming = false`, and once `receivedDone` is set the end-of-stream
handler performs no further patch; the implementation does not,
however, stop applying events that are decoded after a terminal event
(see the counterexample). -/
theorem C3_done_terminal :
    (∀ (st : TurnState) (payload : List Char) (d : Json),
      st.eventBuffer = "done".toList → jsonParse payload = some d →
      ∀ _h : st.messageIndex < st.research.length,
      ∃ m, boundMsg (processLine st ("data: ".toList ++ payload)) = some m
        ∧ m.isStreaming = some false)
    ∧ (∀ st : TurnState, st.receivedDone = true → onClose st = st) := by
  constructor
  · intro st payload d hev hp h
    have hres : (processLine st ("data: ".toList ++ payload)).research
        = updateMessage st.research st.messageIndex (donePatch d) := by
      rw [processLine_data, dataStep_done st payload d hev hp]
      show (settle (propagateQuota _ d) (Except.ok ())).research = _
      rw [settle_research, propagateQuota_research]
    have hidx : (processLine st ("data: ".toList ++ payload)).messageIndex
        = st.messageIndex := by
      rw [processLine_data, dataStep_done st payload d hev hp]
      show (settle (propagateQuota _ d) (Except.ok ())).messageIndex = _
      rw [settle_messageIndex, propagateQuota_messageIndex]
    refine ⟨applyPatch (st.research.get ⟨st.messageIndex, h⟩) (donePatch d), ?_, rfl⟩
    unfold boundMsg
    rw [hres, hidx]
    exact updateMessage_get_self _ _ _ h
  · intro st hdone
    unfold onClose
    rw [if_pos hdone]

theorem C3_done_terminal_witness :
    (∃ m, boundMsg (processLine doneTurnState ("data: ".toList ++ "\x7b\x7d".toList)) = some m
      ∧ m.isStreaming = some false)
    ∧ onClose doneReceivedState = doneReceivedState :=
  ⟨C3_done_terminal.1 doneTurnState "\x7b\x7d".toList (Json.obj []) rfl rfl
    (by decide),
   C3_done_terminal.2 doneReceivedState rfl⟩

/-- C3 counterexample: after a `done` event the bound message has
`streamingStatus = none`; decoding a further `status` event in the same
turn patches it to `"later"` — the message is mutated after the
terminal event, refuting the claim. -/
theorem C3_counterexample :
    (boundMsg (readStream (initTurn [] 0) [doneOnlyChunk])).map
        (fun m => m.streamingStatus) = some none
    ∧ (boundMsg (readStream (initTurn [] 0) [doneThenStatusChunk])).map
        (fun m => m.streamingStatus) = some (some (Json.str "later".toList)) := by
  constructor
  · rfl
  · rfl

/-- C4: evaluation at the failing input — a research turn whose stream
emits one `status` event and then closes with no `done`/`error`.  The
close handler does force `isStreaming = false` on the bound message,
but the turn's promise is left pending (`outcome = none`): `resolve()`
is called only in the `done` handler, so the turn never resolves,
contradicting the claim (and the spec's stated intent of resolving on
silent close). -/
theorem C4_silent_close_evaluation :
    (boundMsg (readStream (initTurn [] 0) [statusOnlyChunk])).map
        (fun m => m.isStreaming) = some (some false)
    ∧ (readStream (initTurn [] 0) [statusOnlyChunk]).outcome = none := by
  constructor
  · rfl
  · rfl

/-- C2: in every research-mode turn, the stream
`event: status` / `data: \x7b"message":"thinking"\x7d` followed by
`event: done` / `data: \x7b"sessionId":"s1","canGoDeeper":true\x7d` leaves
the bound message with `isStreaming = false`, `streamingStatus`
cleared, `sessionId = "s1"`, `canGoDeeper = true`, `confidence = 85`
and `route = "research"`. -/
theorem C2_status_done_scenario (prior : List Msg) (ts : Nat) :
    ∃ m, boundMsg (readStream (initTurn prior ts) [c2chunk]) = some m
      ∧ m.isStreaming = some false
      ∧ m.streamingStatus = none
      ∧ m.sessionId = some (Json.str "s1".toList)
      ∧ m.canGoDeeper = some (Json.bool true)
      ∧ m.confidence = some (Json.num 85)
      ∧ m.route = some (Json.str "research".toList) := by
  have h1 : processLine (initTurn prior ts) "event: status".toList
      = c2state1 prior ts := rfl
  have h2 : processLine (c2state1 prior ts)
        "data: \x7b\"message\":\"thinking\"\x7d".toList = c2state2 prior ts := by
    rw [show ("data: \x7b\"message\":\"thinking\"\x7d".toList)
          = "data: ".toList ++ "\x7b\"message\":\"thinking\"\x7d".toList from rfl,
        processLine_data,
        dataStep_status (c2state1 prior ts) ("\x7b\"message\":\"thinking\"\x7d".toList)
          dThinking rfl rfl]
    show ({ c2state1 prior ts with
            eventBuffer := [],
            research := updateMessage (prior ++ [placeholderMessage prior ts])
              prior.length (statusPatch dThinking) } : TurnState) = c2state2 prior ts
    rw [updateMessage_append_last]
    rfl
  have h3 : processLine (c2state2 prior ts) "event: done".toList
      = c2state3 prior ts := rfl
  have h4 : processLine (c2state3 prior ts)
        "data: \x7b\"sessionId\":\"s1\",\"canGoDeeper\":true\x7d".toList
      = c2final prior ts := by
    rw [show ("data: \x7b\"sessionId\":\"s1\",\"canGoDeeper\":true\x7d".toList)
          = "data: ".toList ++ "\x7b\"sessionId\":\"s1\",\"canGoDeeper\":true\x7d".toList
          from rfl,
        processLine_data,
        dataStep_done (c2state3 prior ts)
          ("\x7b\"sessionId\":\"s1\",\"canGoDeeper\":true\x7d".toList) dDoneS1 rfl rfl]
    show ({ settle (propagateQuota
            { c2state3 prior ts with
              receivedDone := true,
              research := updateMessage
                (prior ++ [applyPatch (placeholderMessage prior ts) (statusPatch dThinking)])
                prior.length (donePatch dDoneS1) } dDoneS1)
            (Except.ok ()) with eventBuffer := [] } : TurnState) = c2final prior ts
    rw [updateMessage_append_last]
    rfl
  have hrun : readStream (initTurn prior ts) [c2chunk] = c2final prior ts := by
    rw [readStream_single,
        show (splitAll c2chunk).1
          = (["event: status".toList, "data: \x7b\"message\":\"thinking\"\x7d".toList, [],
              "event: done".toList,
              "data: \x7b\"sessionId\":\"s1\",\"canGoDeeper\":true\x7d".toList, []]
            : List (List Char)) from rfl]
    rw [processLines_cons,
        show jsTrim "event: status".toList = "event: status".toList from rfl, h1]
    rw [processLines_cons,
        show jsTrim "data: \x7b\"message\":\"thinking\"\x7d".toList
          = "data: \x7b\"message\":\"thinking\"\x7d".toList from rfl, h2]
    rw [processLines_cons_skip]
    rw [processLines_cons,
        show jsTrim "event: done".toList = "event: done".toList from rfl, h3]
    rw [processLines_cons,
        show jsTrim "data: \x7b\"sessionId\":\"s1\",\"canGoDeeper\":true\x7d".toList
          = "data: \x7b\"sessionId\":\"s1\",\"canGoDeeper\":true\x7d".toList from rfl, h4]
    rw [processLines_cons_skip, processLines_nil]
    · rfl
    all_goals decide
  refine ⟨c2msg prior ts, ?_, rfl, rfl, rfl, rfl, rfl, rfl⟩
  rw [hrun]
  show (prior ++ [c2msg prior ts])[prior.length]? = some (c2msg prior ts)
  exact List.getElem?_concat_length prior _

/-- C8: in the deeper-analysis sub-session, (a) an `error` event
patches the target message to `isLoadingDeeper = false`,
`canGoDeeper = true` and rejects the pending promise with the payload's
message, and (b) any transport-level failure (non-success HTTP status
or connection error) likewise restores both fields and rejects with the
error's message. -/
theorem C8_deeper_error_restores :
    (∀ (st : DState) (payload : List Char) (d : Json),
      st.eventBuffer = "error".toList → jsonParse payload = some d →
      st.outcome = none →
      ∀ _h : st.messageIndex < st.research.length,
      ∃ m, (deeperProcessLine st ("data: ".toList ++ payload)).research[st.messageIndex]?
          = some m
        ∧ m.isLoadingDeeper = some false
        ∧ m.canGoDeeper = some (Json.bool true)
        ∧ (deeperProcessLine st ("data: ".toList ++ payload)).outcome
            = some (Except.error (jlookup d "message".toList)))
    ∧ (∀ (research : List Msg) (index : Nat) (token : Option (List Char))
        (err : List Char),
      jsOptTruthy ((research[index]?).bind (fun m => m.sessionId)) = true →
      strOptTruthy token = true →
      ∀ _h : index < research.length,
      ∃ m, (requestDeeperAnalysis research index token
              (DeeperTransport.failure err)).research[index]? = some m
        ∧ m.isLoadingDeeper = some false
        ∧ m.canGoDeeper = some (Json.bool true)
        ∧ (requestDeeperAnalysis research index token
            (DeeperTransport.failure err)).outcome
            = some (Except.error (some (Json.str err)))) := by
  constructor
  · intro st payload d hev hp hout h
    rw [deeperProcessLine_data, deeperDataStep_error st payload d hev hp,
        dsettle_none
          ({ st with research := updateMessage st.research st.messageIndex deeperErrorPatch })
          (Except.error (jlookup d "message".toList)) hout]
    exact ⟨applyPatch (st.research.get ⟨st.messageIndex, h⟩) deeperErrorPatch,
      updateMessage_get_self _ _ _ h, rfl, rfl, rfl⟩
  · intro research index token err hsid htok h
    have hcall : requestDeeperAnalysis research index token (DeeperTransport.failure err)
        = { research := updateMessage (updateMessage research index deeperStartPatch)
              index deeperErrorPatch,
            outcome := some (Except.error (some (Json.str err))),
            quota := none, diagnostics := [], networkCalled := true } := by
      simp [requestDeeperAnalysis, hsid, htok]
    rw [hcall]
    have h1 : index < (updateMessage research index deeperStartPatch).length := by
      rw [updateMessage_length]
      exact h
    exact ⟨applyPatch ((updateMessage research index deeperStartPatch).get ⟨index, h1⟩)
        deeperErrorPatch,
      updateMessage_get_self _ _ _ h1, rfl, rfl, rfl⟩

theorem C8_deeper_error_restores_witness :
    (∃ m, (deeperProcessLine errDState
            ("data: ".toList ++ "\x7b\"message\":\"bad\"\x7d".toList)).research[0]? = some m
      ∧ m.isLoadingDeeper = some false
      ∧ m.canGoDeeper = some (Json.bool true)
      ∧ (deeperProcessLine errDState
          ("data: ".toList ++ "\x7b\"message\":\"bad\"\x7d".toList)).outcome
          = some (Except.error (some (Json.str "bad".toList))))
    ∧ (∃ m, (requestDeeperAnalysis [sampleSessionMsg] 0 (some "tok".toList)
            (DeeperTransport.failure "Request failed (500)".toList)).research[0]? = some m
      ∧ m.isLoadingDeeper = some false
      ∧ m.canGoDeeper = some (Json.bool true)
      ∧ (requestDeeperAnalysis [sampleSessionMsg] 0 (some "tok".toList)
          (DeeperTransport.failure "Request failed (500)".toList)).outcome
          = some (Except.error (some (Json.str "Request failed (500)".toList)))) :=
  ⟨C8_deeper_error_restores.1 errDState "\x7b\"message\":\"bad\"\x7d".toList
      (Json.obj [("message".toList, Json.str "bad".toList)]) rfl rfl rfl (by decide),
   C8_deeper_error_restores.2 [sampleSessionMsg] 0 (some "tok".toList)
      "Request failed (500)".toList rfl rfl (by decide)⟩

/-- C10 (amended): a blank (empty or whitespace-only) send returns
before touching anything: both tracks unchanged, no HTTP request, no
callback.  A non-blank unauthenticated send also changes nothing and
issues no request, and invokes only the host's `onAuthRequired`
callback, when one is configured (the result records whether it was
invoked: exactly `hasOnAuthRequired`). -/
theorem C10_send_guard (content : List Char)
    (isAuthenticated hasOnAuthRequired isResearchMode : Bool) (ts : Nat)
    (messages research : List Msg) (k : List Msg → List Msg → SendResult) :
    (jsTrim content = [] →
      sendMessage content isAuthenticated hasOnAuthRequired isResearchMode ts
          messages research k
        = { messages := messages, research := research, httpIssued := false,
            authRequiredCalled := false })
    ∧ (jsTrim content ≠ [] → isAuthenticated = false →
      sendMessage content isAuthenticated hasOnAuthRequired isResearchMode ts
          messages research k
        = { messages := messages, research := research, httpIssued := false,
            authRequiredCalled := hasOnAuthRequired }) := by
  constructor
  · intro h
    simp [sendMessage, h]
  · intro h ha
    simp [sendMessage, h, ha]

theorem C10_send_guard_witness :
    sendMessage "  ".toList true true false 0 [] [] sampleK
      = { messages := [], research := [], httpIssued := false,
          authRequiredCalled := false }
    ∧ sendMessage "hi".toList false true false 0 [] [] sampleK
      = { messages := [], research := [], httpIssued := false,
          authRequiredCalled := true } :=
  ⟨(C10_send_guard "  ".toList true true false 0 [] [] sampleK).1 rfl,
   (C10_send_guard "hi".toList false true false 0 [] [] sampleK).2 (by decide) rfl⟩

/-- C10 counterexample: a blank send while unauthenticated (with an
`onAuthRequired` callback configured) invokes nothing — the blank-
content guard returns first — refuting the claim that in the
unauthenticated case the `onAuthRequired` callback is invoked. -/
theorem C10_counterexample :
    (sendMessage "   ".toList false true false 0 [] [] sampleK).authRequiredCalled
      = false := rfl

theorem consFirst_eq (c : Char) (r : List (List Char) × List Char) :
    consFirst c r =
      match r.1 with
      | [] => ([], c :: r.2)
      | s :: ss => ((c :: s) :: ss, r.2) := by
  obtain ⟨ls, p⟩ := r
  cases ls <;> rfl

theorem splitAll_cons (c : Char) (rest : List Char) :
    splitAll (c :: rest) =
      if c = '\n' then ([] :: (splitAll rest).1, (splitAll rest).2)
      else consFirst c (splitAll rest) := rfl

/-- Splitting a concatenation: the segments of `a`, with the trailing
segment of `a` merged into the first segment of `b`'s split. -/
theorem splitAll_append (a b : List Char) :
    splitAll (a ++ b)
      = ((splitAll a).1 ++ (splitAll ((splitAll a).2 ++ b)).1,
         (splitAll ((splitAll a).2 ++ b)).2) := by
  induction a with
  | nil => simp [splitAll]
  | cons c a ih =>
    simp only [List.cons_append, splitAll_cons]
    by_cases hc : c = '\n'
    · subst hc
      simp [ih]
    · simp only [if_neg hc, consFirst_eq]
      rw [ih]
      cases h : (splitAll a).1 with
      | nil =>
        simp only [h, List.nil_append, List.cons_append, splitAll_cons, hc,
          if_false, consFirst_eq]
      | cons s ss =>
        simp [h]

theorem splitAll_no_newline (p : List Char) (h : '\n' ∉ p) :
    splitAll p = ([], p) := by
  induction p with
  | nil => rfl
  | cons c cs ih =>
    simp only [List.mem_cons] at h
    push_neg at h
    simp [splitAll_cons, ih h.2, Ne.symm h.1, consFirst_eq]

theorem splitAll_tail_no_newline (cs : List Char) : '\n' ∉ (splitAll cs).2 := by
  induction cs with
  | nil => simp [splitAll]
  | cons c cs ih =>
    by_cases hc : c = '\n'
    · simpa [splitAll_cons, hc] using ih
    · simp only [splitAll_cons, if_neg hc, consFirst_eq]
      cases h : (splitAll cs).1 with
      | nil =>
        simp only [List.mem_cons]
        push_neg
        exact ⟨fun he => hc he.symm, ih⟩
      | cons s ss =>
        exact ih

theorem framer_nil (s : List (List Char) × List Char) : framer s [] = s := rfl

theorem framer_cons (s : List (List Char) × List Char) (c : List Char)
    (chunks : List (List Char)) :
    framer s (c :: chunks) =
      framer (s.1 ++ (splitAll (s.2 ++ c)).1, (splitAll (s.2 ++ c)).2) chunks := rfl

/-- The emitted lines accumulate on the left. -/
theorem framer_acc (chunks : List (List Char)) (acc : List (List Char))
    (p : List Char) :
    framer (acc, p) chunks
      = (acc ++ (framer ([], p) chunks).1, (framer ([], p) chunks).2) := by
  induction chunks generalizing acc p with
  | nil => simp [framer_nil]
  | cons c cs ih =>
    simp only [framer_cons, List.nil_append]
    rw [ih, ih ((splitAll (p ++ c)).1)]
    simp [List.append_assoc]

/-- Running the framer from a newline-free carried partial line over any
chunk sequence gives exactly the split of the concatenated text. -/
theorem framer_join (chunks : List (List Char)) (p : List Char)
    (hp : '\n' ∉ p) :
    framer ([], p) chunks = splitAll (p ++ chunks.flatten) := by
  induction chunks generalizing p with
  | nil =>
    simp [framer_nil, splitAll_no_newline p hp]
  | cons c cs ih =>
    rw [framer_cons]
    simp only [List.nil_append]
    rw [framer_acc, ih _ (splitAll_tail_no_newline _)]
    rw [List.flatten_cons, ← List.append_assoc, splitAll_append (p ++ c) cs.flatten]

/-- The interleaved read loop equals framing followed by processing. -/
theorem readChunks_framer (chunks : List (List Char)) (st : TurnState)
    (p : List Char) :
    chunks.foldl readChunk (st, p)
      = (processLines st (framer ([], p) chunks).1, (framer ([], p) chunks).2) := by
  induction chunks generalizing st p with
  | nil => simp [framer_nil, processLines_nil]
  | cons c cs ih =>
    simp only [List.foldl_cons]
    rw [show readChunk (st, p) c
        = (processLines st (splitAll (p ++ c)).1, (splitAll (p ++ c)).2) from rfl]
    rw [ih, framer_cons]
    simp only [List.nil_append]
    rw [framer_acc cs ((splitAll (p ++ c)).1) ((splitAll (p ++ c)).2)]
    simp [processLines, List.foldl_append]

/-- C1: chunk-boundary invariance.  For every way of splitting the byte
stream into chunks, the Line Framer emits the same line sequence (and
leftover partial line) as for the unsplit stream; hence the processed
(trimmed, non-blank) lines coincide, and the whole `readStream`
pipeline — SSE decoding included — produces the same final turn state
from any starting state. -/
theorem C1_chunk_invariance (chunks : List (List Char)) :
    framer ([], []) chunks = framer ([], []) [chunks.flatten]
    ∧ processedLines chunks = processedLines [chunks.flatten]
    ∧ ∀ st : TurnState, readStream st chunks = readStream st [chunks.flatten] := by
  have hj : framer ([], []) chunks = splitAll chunks.flatten := by
    rw [framer_join chunks [] (by simp)]
    rfl
  have hj1 : framer ([], []) [chunks.flatten] = splitAll chunks.flatten := by
    rw [framer_join [chunks.flatten] [] (by simp)]
    simp
  have hfr : framer ([], []) chunks = framer ([], []) [chunks.flatten] := by
    rw [hj, hj1]
  refine ⟨hfr, ?_, ?_⟩
  · unfold processedLines
    rw [hfr]
  · intro st
    unfold readStream
    rw [readChunks_framer, readChunks_framer, hfr]
